import Mathlib

/-!
Shallow embedding of `agent.py` (k8s-debug-agent), a Kubernetes debugging
CLI.  Every definition in the `Agent` namespace is translated directly from
the Python source:

* external effects (the Kubernetes API, the subprocess runner, the terminal,
  the reasoning oracle) are passed in as explicit parameters returning
  `Except`/`Option` values, mirroring the `try/except` structure of the code;
* Python truthiness on optional strings (`x or y`, `if not x`) is modelled
  by `truthyS`/`pyOr`;
* `sorted(set(xs))` is modelled by first-occurrence de-duplication followed
  by an insertion sort under the lexicographic order on `String` (Python's
  string order and Lean's agree: both compare code points);
* the two `re.sub` bullet-normalisation passes are modelled by explicit
  left-to-right scanners that reproduce the regex engine's behaviour on
  these particular patterns (leftmost match, lookbehind against the original
  text, resumption after the matched span).
-/

namespace Agent

/-- Python truthiness of an optional string: `None` and `""` are falsy. -/
def truthyS : Option String → Bool
  | none => false
  | some s => s ≠ ""

/-- Python `x or d` for an optional string `x` and a string default `d`. -/
def pyOr (x : Option String) (d : String) : String :=
  match x with
  | none => d
  | some s => if s = "" then d else s

/-- Python `f"{x}"` rendering of an optional string (`None` prints as "None"). -/
def pyShowOpt : Option String → String
  | none => "None"
  | some s => s

/-- Worker for first-occurrence de-duplication: `seen` is the set of keys
already inserted. -/
def dedupFirstAux {α : Type} [DecidableEq α] (seen : List α) : List α → List α
  | [] => []
  | x :: xs =>
    if x ∈ seen then dedupFirstAux seen xs
    else x :: dedupFirstAux (x :: seen) xs

/-- First-occurrence de-duplication, the order-preserving semantics of
`dict.fromkeys(xs)` used in the source. -/
def dedupFirst {α : Type} [DecidableEq α] (l : List α) : List α :=
  dedupFirstAux [] l

/-- Python's string order: lexicographic comparison of code points. -/
def pyStrLe (a b : String) : Prop :=
  a.data.map Char.toNat ≤ b.data.map Char.toNat

instance : DecidableRel pyStrLe := fun a b =>
  inferInstanceAs (Decidable (a.data.map Char.toNat ≤ b.data.map Char.toNat))

instance : IsTotal String pyStrLe :=
  ⟨fun a b => le_total (a.data.map Char.toNat) (b.data.map Char.toNat)⟩

instance : IsTrans String pyStrLe :=
  ⟨fun _ _ _ hab hbc => le_trans hab hbc⟩

/-- Python `sorted(set(xs))` on strings: distinct elements in ascending
code-point order. -/
def pySortedSet (l : List String) : List String :=
  (dedupFirst l).insertionSort pyStrLe

/-- The source's command runner (its Python name is a reserved token in
Lean, hence `runCmd`): execute a shell command through the external
collaborator `exec` and return its stdout; a `CalledProcessError`
(non-zero exit, carrying the captured output) is caught and rendered as a
tagged error string.  Total: never propagates a failure to the caller. -/
def runCmd (exec : List String → Except String String) (cmd : List String) : String :=
  match exec cmd with
  | .ok out => out
  | .error out => "❌ Error executing " ++ String.intercalate " " cmd ++ ":\n" ++ out

-- ----------------------------
-- Data model of the Kubernetes objects the code reads
-- ----------------------------

/-- An owner reference: `controller` models the truthiness of
`getattr(ref, "controller", False)`. -/
structure OwnerRef where
  controller : Bool
  kind : String
  name : String
deriving DecidableEq, Repr

/-- Pod metadata (`ns` models the `namespace` field, a Lean keyword). -/
structure PodMeta where
  ns : String
  name : String
  owner_references : List OwnerRef
deriving DecidableEq, Repr

/-- A pod status condition; `status`, `reason`, `message` may be absent. -/
structure PodCondition where
  type : String
  status : Option String
  reason : Option String
  message : Option String
deriving DecidableEq, Repr

/-- A container waiting/terminated state detail with an optional reason. -/
structure StateDetail where
  reason : Option String
deriving DecidableEq, Repr

/-- A container state: optional waiting and terminated details. -/
structure ContainerState where
  waiting : Option StateDetail
  terminated : Option StateDetail
deriving DecidableEq, Repr

/-- A container status carrying an optional state. -/
structure ContainerStatus where
  state : Option ContainerState
deriving DecidableEq, Repr

/-- Pod status: the `or []` fallbacks in the source let `List` stand for the
optional lists. -/
structure PodStatus where
  conditions : List PodCondition
  container_statuses : List ContainerStatus
  phase : Option String
deriving DecidableEq, Repr

/-- A pod, as read by the scanner. -/
structure V1Pod where
  metadata : PodMeta
  status : PodStatus
deriving DecidableEq, Repr

-- ----------------------------
-- resolve_controller_for_pod
-- ----------------------------

/-- The cluster lookups `resolve_controller_for_pod` performs, plus an
`apiInit` effect modelling any exception raised outside the two inner
`try` blocks (e.g. while constructing the API clients); such an exception
is caught by the outer handler.  `rsLookup name ns` returns the owner
references of the fetched ReplicaSet. -/
structure ResolveEnv where
  apiInit : Except Unit Unit
  rsLookup : String → String → Except Unit (List OwnerRef)
  jobLookup : String → String → Except Unit Unit

/-- Selection of the owner reference: the first reference flagged as
controller, else the first reference, else none. -/
def selectedRef (pod : V1Pod) : Option OwnerRef :=
  match pod.metadata.owner_references.find? (fun r => r.controller) with
  | some r => some r
  | none => pod.metadata.owner_references.head?

/-- `resolve_controller_for_pod`: resolve the managing controller of a pod,
following the ReplicaSet→Deployment indirection, with every lookup failure
handled exactly as the source's `try/except` blocks do. -/
def resolve_controller_for_pod (env : ResolveEnv) (pod : V1Pod) :
    Option String × Option String :=
  match env.apiInit with
  | .error _ => (none, none)
  | .ok _ =>
    match selectedRef pod with
    | none => (none, none)
    | some controller_ref =>
      let kind := controller_ref.kind
      let name := controller_ref.name
      let ns := pod.metadata.ns
      if kind = "ReplicaSet" then
        match env.rsLookup name ns with
        | .ok rs_owners =>
          match rs_owners.find? (fun r => r.controller && r.kind = "Deployment") with
          | some r => (some "Deployment", some r.name)
          | none => (some "ReplicaSet", some name)
        | .error _ => (some "ReplicaSet", some name)
      else if kind = "StatefulSet" ∨ kind = "DaemonSet" then
        (some kind, some name)
      else if kind = "Job" then
        match env.jobLookup name ns with
        | .ok _ => (some "Job", some name)
        | .error _ => (some "Job", some name)
      else
        (some kind, some name)

-- ----------------------------
-- get_failing_pods
-- ----------------------------

/-- The first status condition of type "Ready" (the source's scan-and-break
loop). -/
def findReadyCondition (pod : V1Pod) : Option PodCondition :=
  pod.status.conditions.find? (fun c => c.type = "Ready")

/-- `is_ready`: a Ready condition exists and its status is the string
"True". -/
def isPodReady (pod : V1Pod) : Bool :=
  match findReadyCondition pod with
  | some c => c.status = some "True"
  | none => false

/-- The non-empty reasons collected from each container's waiting and
terminated states, in container order, waiting before terminated. -/
def containerReasons (pod : V1Pod) : List String :=
  pod.status.container_statuses.flatMap fun cs =>
    match cs.state with
    | none => []
    | some st =>
      (match st.waiting with
       | some w => if truthyS w.reason then [w.reason.getD ""] else []
       | none => []) ++
      (match st.terminated with
       | some t => if truthyS t.reason then [t.reason.getD ""] else []
       | none => [])

/-- The signal taken from the Ready condition:
`reason = ready_condition.reason or ready_condition.message`. -/
def conditionReason (pod : V1Pod) : Option String :=
  match findReadyCondition pod with
  | some c => if truthyS c.reason then c.reason else c.message
  | none => none

/-- The reason after the container-state step: keep a truthy condition
signal, else join the sorted de-duplicated container reasons when any
exist. -/
def reasonWithContainers (pod : V1Pod) : Option String :=
  if truthyS (conditionReason pod) then conditionReason pod
  else
    let crs := containerReasons pod
    if crs.isEmpty then conditionReason pod
    else some (String.intercalate ", " (pySortedSet crs))

/-- The fully derived reason: the container step's result when truthy, else
`pod.status.phase or "NotReady"`. -/
def deriveReason (pod : V1Pod) : String :=
  if truthyS (reasonWithContainers pod) then (reasonWithContainers pod).getD ""
  else
    match pod.status.phase with
    | some p => if p = "" then "NotReady" else p
    | none => "NotReady"

/-- `get_failing_pods` over an already-listed pod collection (the listing
itself is the external cluster query): keep each pod that is not ready and
whose final derived reason is not "PodCompleted", resolving its controller
through `resolve`. -/
def get_failing_pods (resolve : V1Pod → Option String × Option String)
    (pods : List V1Pod) :
    List (String × String × String × Option String × Option String) :=
  pods.filterMap fun pod =>
    if isPodReady pod then none
    else
      let reason := deriveReason pod
      if reason = "PodCompleted" then none
      else some (pod.metadata.ns, pod.metadata.name, reason,
                 (resolve pod).1, (resolve pod).2)

-- ----------------------------
-- Action requests and dispatch
-- ----------------------------

/-- The closed set of action types the oracle may request. -/
inductive ActionType where
  | DESCRIBE_POD
  | LOGS
  | DESCRIBE_DEPLOYMENT
  | GET_CONFIGMAP
  | GET_EVENTS
  | STOP
deriving DecidableEq, Repr

/-- An `ActionRequest`: a type plus optional namespace and name. -/
structure ActionRequest where
  type : ActionType
  ns : Option String
  name : Option String
deriving DecidableEq, Repr

/-- A container entry of a pod spec (only its optional name is read). -/
structure Container where
  name : Option String
deriving DecidableEq, Repr

/-- The part of a pod spec the LOGS branch reads. -/
structure PodSpec where
  init_containers : List Container
  containers : List Container
deriving DecidableEq, Repr

/-- The truthy names of a container list, in order. -/
def containerNamesOf (l : List Container) : List String :=
  l.filterMap fun c =>
    match c.name with
    | some s => if s = "" then none else some s
    | none => none

/-- The de-duplicated container-name menu for a pod spec: init-container
names first, then regular names, first occurrence kept
(`list(dict.fromkeys(...))`). -/
def uniqueNames (spec : PodSpec) : List String :=
  dedupFirst (containerNamesOf spec.init_containers ++ containerNamesOf spec.containers)

/-- Container selection for LOGS.  `lookup` is the result of reading the
pod (failure = the caught enumeration exception).  `attempts` is the
stream of 0-based numeric answers the operator types at the selection
prompt (invalid or non-numeric answers are re-asked, so only the parsed
candidates appear).  Result: `some sel` is the container qualifier used
(`none` = no `-c` flag); `none` means the prompt never received a valid
answer, so the retry loop never produces a command. -/
def selectContainer (lookup : Except Unit PodSpec) (attempts : List Nat) :
    Option (Option String) :=
  match lookup with
  | .error _ => some none
  | .ok spec =>
    let unique := uniqueNames spec
    if unique.length > 1 then
      match attempts.find? (fun i => i < unique.length) with
      | some i => some (unique.get? i)
      | none => none
    else if unique.length = 1 then some unique.head?
    else some none

/-- The kubectl argument vector built for an action, as the Python list
literal: elements are optional strings because the source passes
`result.name` / `result.namespace` (possibly `None`) straight into the
list for every action except LOGS, which substitutes the current target
(`ns`, `pod`) for absent fields.  `selected_container` is the LOGS
container qualifier.  STOP returns before any command is built. -/
def buildActionCmd (req : ActionRequest) (ns pod : String)
    (selected_container : Option String) : List (Option String) :=
  match req.type with
  | .DESCRIBE_POD =>
    [some "kubectl", some "describe", some "pod", req.name, some "-n", req.ns]
  | .LOGS =>
    let target_namespace := pyOr req.ns ns
    let target_pod := pyOr req.name pod
    [some "kubectl", some "logs", some target_pod, some "-n",
     some target_namespace, some "--tail=100"] ++
    (match selected_container with
     | some c => [some "-c", some c]
     | none => [])
  | .DESCRIBE_DEPLOYMENT =>
    [some "kubectl", some "describe", some "deployment", req.name, some "-n", req.ns]
  | .GET_CONFIGMAP =>
    [some "kubectl", some "get", some "configmap", req.name, some "-n", req.ns,
     some "-o", some "yaml"]
  | .GET_EVENTS =>
    [some "kubectl", some "get", some "events", some "-n", req.ns]
  | .STOP => []

-- ----------------------------
-- Raw-mode input reading and target switching
-- ----------------------------

/-- `read_user_input_or_ctrl_n` over an explicit keystroke stream:
`buffer` is the accumulated line, the result is `(text, is_ctrl_n)`.
`none` models the blocking read when the stream is exhausted.
Ctrl+n (`\x0e`) returns immediately with empty text; CR/LF commits the
stripped buffer; `\x7f` erases the last buffered character; printable
ASCII is appended; every other control character is skipped. -/
def readUserInputOrCtrlN (buffer : List Char) : List Char → Option (String × Bool)
  | [] => none
  | ch :: rest =>
    if ch = '\x0e' then some ("", true)
    else if ch = '\r' ∨ ch = '\n' then some ((String.mk buffer).trim, false)
    else if ch = '\x7f' then readUserInputOrCtrlN buffer.dropLast rest
    else if '\x20' ≤ ch ∧ ch ≤ '\x7e' then readUserInputOrCtrlN (buffer ++ [ch]) rest
    else readUserInputOrCtrlN buffer rest

/-- A failing-pod record as the 5-tuples built by `get_failing_pods`. -/
abbrev PodTuple := String × String × String × Option String × Option String

/-- The mutable state of the chat loop that switching touches. -/
structure ChatState where
  current_idx : Nat
  ns : String
  pod : String
  reason : String
  context : String
deriving DecidableEq, Repr

/-- The fresh context string built whenever a target is (re)selected. -/
def podContext (ns pod reason : String) : String :=
  "Pod " ++ pod ++ " in namespace " ++ ns ++ " is failing: " ++ reason

/-- The Ctrl+n branch of the chat loop: advance the index modulo the
working-set size, rebind the target fields from the tuple there, and
replace the context with a fresh description.  `none` models the
`ZeroDivisionError` the source would hit on an empty working set. -/
def switchStep (all_pods : List PodTuple) (s : ChatState) : Option ChatState :=
  if all_pods.length = 0 then none
  else
    let idx := (s.current_idx + 1) % all_pods.length
    match all_pods.get? idx with
    | none => none
    | some t =>
      some { current_idx := idx, ns := t.1, pod := t.2.1, reason := t.2.2.1,
             context := podContext t.1 t.2.1 t.2.2.1 }

-- ----------------------------
-- One oracle turn: prompt construction and context update
-- ----------------------------

/-- `user_prompt = f"{context}\nUser: {user_input}"` — the only place the
user's utterance is combined with the transcript. -/
def userPrompt (context user_input : String) : String :=
  context ++ "\nUser: " ++ user_input

/-- The rendering of an action type in f-strings. -/
def actionTypeStr : ActionType → String
  | .DESCRIBE_POD => "DESCRIBE_POD"
  | .LOGS => "LOGS"
  | .DESCRIBE_DEPLOYMENT => "DESCRIBE_DEPLOYMENT"
  | .GET_CONFIGMAP => "GET_CONFIGMAP"
  | .GET_EVENTS => "GET_EVENTS"
  | .STOP => "STOP"

/-- The oracle's reply as the chat loop discriminates it: an action request
(paired with the output its dispatch produced), a final analysis, or the
passthrough text of an unstructured reply. -/
inductive OracleResult where
  | action (req : ActionRequest) (output : String)
  | final (root_cause remediation : String)
  | passthrough (text : String)
deriving Repr

-- ----------------------------
-- _format_bullets: the two re.sub passes
-- ----------------------------

/-- The characters Python's `\s` matches on ASCII text. -/
def isWsChar (c : Char) : Bool :=
  c = ' ' || c = '\t' || c = '\n' || c = '\r' || c = '\x0b' || c = '\x0c'

/-- The bullet glyphs of the character class `[-•*]`. -/
def isGlyph (c : Char) : Bool :=
  c = '-' || c = '•' || c = '*'

/-- Whether the scan position is at the start of a line: the lookbehinds
`(?<!^)(?<!\n)` fail exactly when the previous original character is
absent (string start) or a newline. -/
def atLineStart : Option Char → Bool
  | none => true
  | some c => c = '\n'

/-- Head-is-whitespace test for the `\s+` requirement after a glyph. -/
def headWs : List Char → Bool
  | [] => false
  | c :: _ => isWsChar c

/-- First pass, `re.sub(r"(?<!^)(?<!\n)([-•*]\s+)", r"\n\1", text)`, as a
left-to-right scanner.  `prev` is the previous character of the original
text (the lookbehinds consult the original, not the replacement).  A
character-at-a-time walk is exact for this pattern: a match span is a
glyph followed by whitespace, and no position strictly inside such a span
can start another match, so consuming the span and walking through it
agree. -/
def bulletPass (prev : Option Char) : List Char → List Char
  | [] => []
  | c :: rest =>
    if isGlyph c && headWs rest && !(atLineStart prev) then
      '\n' :: c :: bulletPass (some c) rest
    else
      c :: bulletPass (some c) rest

/-- Length of the match of `\d+\.\s+` anchored at the head of `l`, when it
matches: maximal digit run, a dot, maximal whitespace run (the pattern
admits no backtracking: a shorter digit run still faces a digit, never the
dot). -/
def numMatchLen (l : List Char) : Option Nat :=
  let ds := l.takeWhile Char.isDigit
  if ds.isEmpty then none
  else
    match l.drop ds.length with
    | '.' :: r2 =>
      let ws := r2.takeWhile isWsChar
      if ws.isEmpty then none else some (ds.length + 1 + ws.length)
    | _ => none

/-- Second pass, `re.sub(r"(?<!^)(?<!\n)(\d+\.\s+)", r"\n\1", text)`.
Unlike the glyph pass, a successful match must consume its whole span
(digits inside it would otherwise rematch), which `skip` implements; a
match whose lookbehind fails advances a single character, exactly as the
regex engine does — so `"12. x"` at line start becomes `"1\n2. x"`. -/
def numPass : Nat → Option Char → List Char → List Char
  | _, _, [] => []
  | Nat.succ n, _, c :: rest => c :: numPass n (some c) rest
  | 0, prev, c :: rest =>
    match numMatchLen (c :: rest) with
    | some len =>
      if atLineStart prev then c :: numPass 0 (some c) rest
      else '\n' :: c :: numPass (len - 1) (some c) rest
    | none => c :: numPass 0 (some c) rest

/-- `_format_bullets`: glyph pass then numbered pass (the `try/except
pass` in the source can never fire: `re.sub` on these fixed patterns does
not raise). -/
def formatBullets (text : String) : String :=
  String.mk (numPass 0 none (bulletPass none text.data))

/-- The block appended to the transcript by one handled oracle reply:
the labelled action-result block, the final-analysis block with
bullet-normalised remediation, or the model-response block.  The source
appends with `context += ...`; the user's utterance appears in none of
these blocks. -/
def turnBlock : OracleResult → String
  | .action req output =>
    "\n\n# Result of " ++ actionTypeStr req.type ++ " (" ++ pyShowOpt req.ns ++
      "/" ++ pyShowOpt req.name ++ ")\n" ++ output ++ "\n"
  | .final root_cause remediation =>
    "\n\n# Final Analysis\nRoot Cause: " ++ root_cause ++ "\nRemediation:\n" ++
      formatBullets remediation ++ "\n"
  | .passthrough text =>
    "\n\n# Model Response\n" ++ text ++ "\n"

/-- One non-exit, non-switch turn of the chat loop, from the moment an
ordinary utterance is committed: the pair of (prompt submitted to the
oracle, transcript after the reply is handled). -/
def oracleTurn (context user_input : String) (res : OracleResult) :
    String × String :=
  (userPrompt context user_input, context ++ turnBlock res)

-- ----------------------------
-- Helper lemmas
-- ----------------------------

theorem length_pos_of_ne_empty {x : String} (h : x ≠ "") : 0 < x.length := by
  cases x with
  | mk data =>
    cases data with
    | nil => simp at h
    | cons c cs => simp [String.length]

theorem intercalate_go_length (s : String) : ∀ (as : List String) (acc : String),
    acc.length ≤ (String.intercalate.go acc s as).length := by
  intro as
  induction as with
  | nil => intro acc; simp [String.intercalate.go]
  | cons a as ih =>
    intro acc
    calc acc.length ≤ (acc ++ s ++ a).length := by
          simp [String.length_append]
          omega
    _ ≤ _ := ih (acc ++ s ++ a)

theorem intercalate_cons_ne_empty (s x : String) (rest : List String) (h : x ≠ "") :
    String.intercalate s (x :: rest) ≠ "" := by
  have h2 := intercalate_go_length s rest x
  have h3 : 0 < (String.intercalate s (x :: rest)).length := by
    simp only [String.intercalate]
    have := length_pos_of_ne_empty h
    omega
  intro hc
  rw [hc] at h3
  simp [String.length] at h3

theorem mem_dedupFirstAux {α : Type} [DecidableEq α] :
    ∀ (l : List α) (seen : List α) (a : α),
      a ∈ dedupFirstAux seen l ↔ a ∈ l ∧ a ∉ seen := by
  intro l
  induction l with
  | nil => intro seen a; simp [dedupFirstAux]
  | cons x xs ih =>
    intro seen a
    rw [dedupFirstAux]
    by_cases hx : x ∈ seen
    · simp only [if_pos hx, ih, List.mem_cons]
      constructor
      · rintro ⟨h1, h2⟩; exact ⟨Or.inr h1, h2⟩
      · rintro ⟨h1 | h1, h2⟩
        · subst h1; exact absurd hx h2
        · exact ⟨h1, h2⟩
    · simp only [if_neg hx, List.mem_cons, ih, List.mem_cons]
      constructor
      · rintro (h | ⟨h1, h2⟩)
        · subst h; exact ⟨Or.inl rfl, hx⟩
        · refine ⟨Or.inr h1, fun hc => h2 (Or.inr hc)⟩
      · rintro ⟨h1 | h1, h2⟩
        · exact Or.inl h1
        · by_cases hax : a = x
          · exact Or.inl hax
          · exact Or.inr ⟨h1, fun hc => by
              rcases hc with hc | hc
              · exact hax hc
              · exact h2 hc⟩

theorem mem_dedupFirst {α : Type} [DecidableEq α] (l : List α) (a : α) :
    a ∈ dedupFirst l ↔ a ∈ l := by
  rw [dedupFirst, mem_dedupFirstAux]
  simp

theorem nodup_dedupFirstAux {α : Type} [DecidableEq α] :
    ∀ (l : List α) (seen : List α), (dedupFirstAux seen l).Nodup := by
  intro l
  induction l with
  | nil => intro seen; simp [dedupFirstAux]
  | cons x xs ih =>
    intro seen
    rw [dedupFirstAux]
    by_cases hx : x ∈ seen
    · simpa [if_pos hx] using ih seen
    · rw [if_neg hx]
      refine List.nodup_cons.mpr ⟨?_, ih (x :: seen)⟩
      intro hmem
      rw [mem_dedupFirstAux] at hmem
      exact hmem.2 (List.mem_cons_self x seen)

theorem nodup_dedupFirst {α : Type} [DecidableEq α] (l : List α) :
    (dedupFirst l).Nodup :=
  nodup_dedupFirstAux l []

theorem dedupFirstAux_sublist {α : Type} [DecidableEq α] :
    ∀ (l : List α) (seen : List α), List.Sublist (dedupFirstAux seen l) l := by
  intro l
  induction l with
  | nil => intro seen; simp [dedupFirstAux]
  | cons x xs ih =>
    intro seen
    rw [dedupFirstAux]
    by_cases hx : x ∈ seen
    · rw [if_pos hx]; exact (ih seen).cons x
    · rw [if_neg hx]; exact (ih (x :: seen)).cons₂ x

theorem dedupFirst_sublist {α : Type} [DecidableEq α] (l : List α) :
    List.Sublist (dedupFirst l) l :=
  dedupFirstAux_sublist l []

theorem dedupFirst_ne_nil {α : Type} [DecidableEq α] {l : List α} (h : l ≠ []) :
    dedupFirst l ≠ [] := by
  cases l with
  | nil => exact absurd rfl h
  | cons x xs => rw [dedupFirst, dedupFirstAux]; simp

theorem pySortedSet_sorted (l : List String) :
    (pySortedSet l).Sorted pyStrLe :=
  List.sorted_insertionSort _ _

theorem pySortedSet_nodup (l : List String) : (pySortedSet l).Nodup :=
  ((List.perm_insertionSort _ _).nodup_iff).mpr (nodup_dedupFirst l)

theorem mem_pySortedSet (l : List String) (a : String) :
    a ∈ pySortedSet l ↔ a ∈ l := by
  rw [pySortedSet, (List.perm_insertionSort _ _).mem_iff, mem_dedupFirst]

theorem pySortedSet_ne_nil {l : List String} (h : l ≠ []) : pySortedSet l ≠ [] := by
  intro hc
  have := (List.perm_insertionSort pyStrLe (dedupFirst l)).length_eq
  rw [pySortedSet] at hc
  rw [hc] at this
  exact dedupFirst_ne_nil h (List.length_eq_zero.mp this.symm)

theorem mem_containerReasons_ne_empty (pod : V1Pod) (y : String)
    (h : y ∈ containerReasons pod) : y ≠ "" := by
  rw [containerReasons, List.mem_flatMap] at h
  obtain ⟨cs, _, hy⟩ := h
  cases hst : cs.state with
  | none => rw [hst] at hy; simp at hy
  | some st =>
    rw [hst] at hy
    simp only [List.mem_append] at hy
    rcases hy with hy | hy
    · cases hw : st.waiting with
      | none => rw [hw] at hy; simp at hy
      | some w =>
        rw [hw] at hy
        cases hr : w.reason with
        | none => simp [truthyS, hr] at hy
        | some r =>
          by_cases hre : r = ""
          · simp [truthyS, hr, hre] at hy
          · simp [truthyS, hr, hre] at hy
            subst hy; exact hre
    · cases hw : st.terminated with
      | none => rw [hw] at hy; simp at hy
      | some w =>
        rw [hw] at hy
        cases hr : w.reason with
        | none => simp [truthyS, hr] at hy
        | some r =>
          by_cases hre : r = ""
          · simp [truthyS, hr, hre] at hy
          · simp [truthyS, hr, hre] at hy
            subst hy; exact hre

theorem deriveReason_of_condition_reason (pod : V1Pod) (c : PodCondition) (r : String)
    (hc : findReadyCondition pod = some c) (hr : c.reason = some r) (hne : r ≠ "") :
    deriveReason pod = r := by
  have h0 : conditionReason pod = some r := by
    simp [conditionReason, hc, hr, truthyS, hne]
  simp [deriveReason, reasonWithContainers, h0, truthyS, hne]

theorem deriveReason_of_condition_message (pod : V1Pod) (c : PodCondition) (m : String)
    (hc : findReadyCondition pod = some c) (hr : truthyS c.reason = false)
    (hm : c.message = some m) (hne : m ≠ "") :
    deriveReason pod = m := by
  have h0 : conditionReason pod = some m := by
    simp [conditionReason, hc, hr, hm]
  simp [deriveReason, reasonWithContainers, h0, truthyS, hne]

theorem deriveReason_of_containers (pod : V1Pod)
    (h0 : truthyS (conditionReason pod) = false) (hne : containerReasons pod ≠ []) :
    deriveReason pod = String.intercalate ", " (pySortedSet (containerReasons pod)) := by
  have hx : reasonWithContainers pod =
      some (String.intercalate ", " (pySortedSet (containerReasons pod))) := by
    simp [reasonWithContainers, h0, List.isEmpty_iff, hne]
  have hjoin : String.intercalate ", " (pySortedSet (containerReasons pod)) ≠ "" := by
    obtain ⟨x, rest, hx2⟩ : ∃ x rest, pySortedSet (containerReasons pod) = x :: rest := by
      cases hps : pySortedSet (containerReasons pod) with
      | nil => exact absurd hps (pySortedSet_ne_nil hne)
      | cons x rest => exact ⟨x, rest, rfl⟩
    rw [hx2]
    apply intercalate_cons_ne_empty
    have hxmem : x ∈ pySortedSet (containerReasons pod) := by rw [hx2]; simp
    exact mem_containerReasons_ne_empty pod x ((mem_pySortedSet _ _).mp hxmem)
  simp [deriveReason, hx, truthyS, hjoin]

theorem deriveReason_of_phase (pod : V1Pod) (p : String)
    (h0 : truthyS (conditionReason pod) = false) (hcr : containerReasons pod = [])
    (hp : pod.status.phase = some p) (hne : p ≠ "") :
    deriveReason pod = p := by
  have hx : reasonWithContainers pod = conditionReason pod := by
    simp [reasonWithContainers, h0, hcr]
  simp [deriveReason, hx, h0, hp, hne]

theorem deriveReason_notready (pod : V1Pod)
    (h0 : truthyS (conditionReason pod) = false) (hcr : containerReasons pod = [])
    (hp : pod.status.phase = none ∨ pod.status.phase = some "") :
    deriveReason pod = "NotReady" := by
  have hx : reasonWithContainers pod = conditionReason pod := by
    simp [reasonWithContainers, h0, hcr]
  rcases hp with hp | hp <;> simp [deriveReason, hx, h0, hp]

theorem isPodReady_iff (pod : V1Pod) :
    isPodReady pod = true ↔
      ∃ c, findReadyCondition pod = some c ∧ c.status = some "True" := by
  rw [isPodReady]
  cases h : findReadyCondition pod with
  | none => simp
  | some c => simp [h]

theorem get_failing_pods_eq (resolve : V1Pod → Option String × Option String)
    (pods : List V1Pod) :
    get_failing_pods resolve pods =
      (pods.filter fun p => !isPodReady p && !(deriveReason p == "PodCompleted")).map
        (fun p => (p.metadata.ns, p.metadata.name, deriveReason p,
                   (resolve p).1, (resolve p).2)) := by
  induction pods with
  | nil => rfl
  | cons p ps ih =>
    by_cases h1 : isPodReady p
    · simpa [get_failing_pods, List.filterMap_cons, List.filter_cons, h1] using ih
    · by_cases h2 : deriveReason p = "PodCompleted"
      · simpa [get_failing_pods, List.filterMap_cons, List.filter_cons, h1, h2] using ih
      · simpa [get_failing_pods, List.filterMap_cons, List.filter_cons, h1, h2] using ih

theorem mem_get_failing_pods (resolve : V1Pod → Option String × Option String)
    (pods : List V1Pod) (pod : V1Pod) (hmem : pod ∈ pods)
    (hnr : isPodReady pod = false) (hex : deriveReason pod ≠ "PodCompleted") :
    (pod.metadata.ns, pod.metadata.name, deriveReason pod,
     (resolve pod).1, (resolve pod).2) ∈ get_failing_pods resolve pods := by
  rw [get_failing_pods_eq]
  exact List.mem_map_of_mem _ (List.mem_filter.mpr ⟨hmem, by simp [hnr, hex]⟩)

/-- C1: a pod enters the scan result iff it lacks a Ready condition with
status "True" and its final derived reason is not exactly "PodCompleted";
the derived reason follows the strict priority condition-reason,
condition-message, sorted de-duplicated comma-joined non-empty container
waiting/terminated reasons, pod phase, literal "NotReady"; and the
PodCompleted exclusion reads only the final resolved reason (the result is
a function of `deriveReason pod` alone, never of an intermediate
signal). -/
theorem c1_scan_reason_priority_and_membership :
    (∀ (resolve : V1Pod → Option String × Option String) (pods : List V1Pod),
      get_failing_pods resolve pods =
        (pods.filter fun p => !isPodReady p && !(deriveReason p == "PodCompleted")).map
          (fun p => (p.metadata.ns, p.metadata.name, deriveReason p,
                     (resolve p).1, (resolve p).2))) ∧
    (∀ pod, isPodReady pod = true ↔
      ∃ c, findReadyCondition pod = some c ∧ c.status = some "True") ∧
    (∀ pod c r, findReadyCondition pod = some c → c.reason = some r → r ≠ "" →
      deriveReason pod = r) ∧
    (∀ pod c m, findReadyCondition pod = some c → truthyS c.reason = false →
      c.message = some m → m ≠ "" → deriveReason pod = m) ∧
    (∀ pod, truthyS (conditionReason pod) = false → containerReasons pod ≠ [] →
      deriveReason pod = String.intercalate ", " (pySortedSet (containerReasons pod))) ∧
    (∀ pod p, truthyS (conditionReason pod) = false → containerReasons pod = [] →
      pod.status.phase = some p → p ≠ "" → deriveReason pod = p) ∧
    (∀ pod, truthyS (conditionReason pod) = false → containerReasons pod = [] →
      (pod.status.phase = none ∨ pod.status.phase = some "") →
      deriveReason pod = "NotReady") ∧
    (∀ l, (pySortedSet l).Sorted pyStrLe ∧ (pySortedSet l).Nodup ∧
      ∀ a, a ∈ pySortedSet l ↔ a ∈ l) ∧
    (∀ (resolve : V1Pod → Option String × Option String) pods pod, pod ∈ pods →
      isPodReady pod = false → deriveReason pod ≠ "PodCompleted" →
      (pod.metadata.ns, pod.metadata.name, deriveReason pod,
       (resolve pod).1, (resolve pod).2) ∈ get_failing_pods resolve pods) :=
  ⟨get_failing_pods_eq, isPodReady_iff, deriveReason_of_condition_reason,
   deriveReason_of_condition_message, deriveReason_of_containers,
   deriveReason_of_phase, deriveReason_notready,
   fun l => ⟨pySortedSet_sorted l, pySortedSet_nodup l, mem_pySortedSet l⟩,
   mem_get_failing_pods⟩

/-- A pod whose Ready condition is False with a reason, and whose container
state carries a stale "PodCompleted" signal that must not trigger the
exclusion. -/
def c1PodA : V1Pod :=
  { metadata := ⟨"prod", "api-1", []⟩,
    status := ⟨[⟨"Ready", some "False", some "CrashLoopBackOff", none⟩],
               [⟨some ⟨some ⟨some "PodCompleted"⟩, none⟩⟩],
               some "Running"⟩ }

/-- A pod whose Ready condition has no reason but a message. -/
def c1PodB : V1Pod :=
  { metadata := ⟨"prod", "api-2", []⟩,
    status := ⟨[⟨"Ready", some "False", none, some "containers with unready status"⟩],
               [], some "Running"⟩ }

/-- A pod with no Ready condition and duplicated container reasons. -/
def c1PodC : V1Pod :=
  { metadata := ⟨"prod", "api-3", []⟩,
    status := ⟨[],
               [⟨some ⟨some ⟨some "ErrImagePull"⟩, none⟩⟩,
                ⟨some ⟨some ⟨some "CrashLoopBackOff"⟩, some ⟨some "ErrImagePull"⟩⟩⟩],
               some "Pending"⟩ }

/-- A pod with no signals except its phase. -/
def c1PodD : V1Pod :=
  { metadata := ⟨"prod", "api-4", []⟩, status := ⟨[], [], some "Pending"⟩ }

/-- A pod with no signals at all. -/
def c1PodE : V1Pod :=
  { metadata := ⟨"prod", "api-5", []⟩, status := ⟨[], [], none⟩ }

/-- Witness for C1: each rung of the priority ladder evaluated at a
concrete pod, and inclusion of a pod whose intermediate container signal
is "PodCompleted" but whose final reason is not. -/
theorem c1_scan_reason_priority_and_membership_witness :
    deriveReason c1PodA = "CrashLoopBackOff" ∧
    deriveReason c1PodB = "containers with unready status" ∧
    deriveReason c1PodC = "CrashLoopBackOff, ErrImagePull" ∧
    deriveReason c1PodD = "Pending" ∧
    deriveReason c1PodE = "NotReady" ∧
    ("prod", "api-1", "CrashLoopBackOff", (none : Option String), (none : Option String)) ∈
      get_failing_pods (fun _ => (none, none)) [c1PodA] := by
  refine ⟨?_, ?_, ?_, ?_, ?_, ?_⟩
  · exact c1_scan_reason_priority_and_membership.2.2.1 c1PodA
      ⟨"Ready", some "False", some "CrashLoopBackOff", none⟩ "CrashLoopBackOff"
      rfl rfl (by decide)
  · exact c1_scan_reason_priority_and_membership.2.2.2.1 c1PodB
      ⟨"Ready", some "False", none, some "containers with unready status"⟩
      "containers with unready status" rfl rfl rfl (by decide)
  · have h := c1_scan_reason_priority_and_membership.2.2.2.2.1 c1PodC rfl (by decide)
    rw [h]; rfl
  · exact c1_scan_reason_priority_and_membership.2.2.2.2.2.1 c1PodD "Pending"
      rfl rfl rfl (by decide)
  · exact c1_scan_reason_priority_and_membership.2.2.2.2.2.2.1 c1PodE
      rfl rfl (Or.inl rfl)
  · have h := c1_scan_reason_priority_and_membership.2.2.2.2.2.2.2.2
      (fun _ => (none, none)) [c1PodA] c1PodA (by simp) rfl (by decide)
    simpa using h

/-- C2: owner-reference selection prefers the controller-flagged reference,
else the first, else none; for a ReplicaSet-kind reference the resolver
returns (Deployment, d) when the fetched ReplicaSet has a controller-flagged
Deployment owner named d, and (ReplicaSet, original name) otherwise,
including on any ReplicaSet lookup failure; any exception outside those
handled lookups yields (none, none).  `resolve_controller_for_pod` is a
total function into the bare pair type, so it can never propagate an
exception to its caller. -/
theorem c2_resolve_controller_replicaset_chain :
    (∀ pod r, pod.metadata.owner_references.find? (fun x => x.controller) = some r →
      selectedRef pod = some r) ∧
    (∀ pod, pod.metadata.owner_references.find? (fun x => x.controller) = none →
      selectedRef pod = pod.metadata.owner_references.head?) ∧
    (∀ env pod, env.apiInit = .error () →
      resolve_controller_for_pod env pod = (none, none)) ∧
    (∀ env pod, env.apiInit = .ok () → selectedRef pod = none →
      resolve_controller_for_pod env pod = (none, none)) ∧
    (∀ env pod cref owners r, env.apiInit = .ok () → selectedRef pod = some cref →
      cref.kind = "ReplicaSet" →
      env.rsLookup cref.name pod.metadata.ns = .ok owners →
      owners.find? (fun x => x.controller && x.kind = "Deployment") = some r →
      resolve_controller_for_pod env pod = (some "Deployment", some r.name)) ∧
    (∀ env pod cref owners, env.apiInit = .ok () → selectedRef pod = some cref →
      cref.kind = "ReplicaSet" →
      env.rsLookup cref.name pod.metadata.ns = .ok owners →
      owners.find? (fun x => x.controller && x.kind = "Deployment") = none →
      resolve_controller_for_pod env pod = (some "ReplicaSet", some cref.name)) ∧
    (∀ env pod cref, env.apiInit = .ok () → selectedRef pod = some cref →
      cref.kind = "ReplicaSet" →
      env.rsLookup cref.name pod.metadata.ns = .error () →
      resolve_controller_for_pod env pod = (some "ReplicaSet", some cref.name)) := by
  refine ⟨?_, ?_, ?_, ?_, ?_, ?_, ?_⟩
  · intro pod r h; simp [selectedRef, h]
  · intro pod h; simp [selectedRef, h]
  · intro env pod h; simp [resolve_controller_for_pod, h]
  · intro env pod h hsel; simp [resolve_controller_for_pod, h, hsel]
  · intro env pod cref owners r h hsel hk hrs hf
    simp [resolve_controller_for_pod, h, hsel, hk, hrs, hf]
  · intro env pod cref owners h hsel hk hrs hf
    simp [resolve_controller_for_pod, h, hsel, hk, hrs, hf]
  · intro env pod cref h hsel hk hrs
    simp [resolve_controller_for_pod, h, hsel, hk, hrs]

/-- A pod owned by a controller-flagged ReplicaSet reference. -/
def c2Pod : V1Pod :=
  { metadata := ⟨"prod", "web-7f9", [⟨true, "ReplicaSet", "web-7f9c5b"⟩]⟩,
    status := ⟨[], [], none⟩ }

/-- An environment whose ReplicaSet lookup finds a Deployment owner. -/
def c2EnvDeploy : ResolveEnv :=
  { apiInit := .ok (),
    rsLookup := fun _ _ => .ok [⟨true, "Deployment", "web"⟩],
    jobLookup := fun _ _ => .ok () }

/-- An environment whose ReplicaSet lookup fails. -/
def c2EnvFail : ResolveEnv :=
  { apiInit := .ok (),
    rsLookup := fun _ _ => .error (),
    jobLookup := fun _ _ => .ok () }

/-- An environment that fails before any lookup. -/
def c2EnvBroken : ResolveEnv :=
  { apiInit := .error (),
    rsLookup := fun _ _ => .ok [],
    jobLookup := fun _ _ => .ok () }

/-- Witness for C2: the Deployment indirection, the lookup-failure
fallback, and the outer-exception fallback at concrete inputs. -/
theorem c2_resolve_controller_replicaset_chain_witness :
    resolve_controller_for_pod c2EnvDeploy c2Pod = (some "Deployment", some "web") ∧
    resolve_controller_for_pod c2EnvFail c2Pod = (some "ReplicaSet", some "web-7f9c5b") ∧
    resolve_controller_for_pod c2EnvBroken c2Pod = (none, none) := by
  refine ⟨?_, ?_, ?_⟩
  · exact c2_resolve_controller_replicaset_chain.2.2.2.2.1 c2EnvDeploy c2Pod
      ⟨true, "ReplicaSet", "web-7f9c5b"⟩ [⟨true, "Deployment", "web"⟩]
      ⟨true, "Deployment", "web"⟩ rfl rfl rfl rfl rfl
  · exact c2_resolve_controller_replicaset_chain.2.2.2.2.2.2 c2EnvFail c2Pod
      ⟨true, "ReplicaSet", "web-7f9c5b"⟩ rfl rfl rfl rfl
  · exact c2_resolve_controller_replicaset_chain.2.2.1 c2EnvBroken c2Pod rfl

/-- C3: the reserved control byte `\x0e` (Ctrl+n) read while awaiting
input returns the distinguished switch result `("", true)` no matter what
text has been typed into the buffer (the partial line is discarded); the
switch step moves the cursor to `(i + 1) mod n`, rebinds the target to the
tuple at that position, and replaces the context with a fresh description
of only that target — old context plays no part; and on a non-empty
working set the switch always produces a new state. -/
theorem c3_switch_signal_cycles_target :
    (∀ (buffer rest : List Char),
      readUserInputOrCtrlN buffer ('\x0e' :: rest) = some ("", true)) ∧
    (∀ (all_pods : List PodTuple) (s : ChatState) (t : PodTuple),
      all_pods.get? ((s.current_idx + 1) % all_pods.length) = some t →
      switchStep all_pods s =
        some { current_idx := (s.current_idx + 1) % all_pods.length,
               ns := t.1, pod := t.2.1, reason := t.2.2.1,
               context := podContext t.1 t.2.1 t.2.2.1 }) ∧
    (∀ (all_pods : List PodTuple) (s : ChatState) (c : String),
      switchStep all_pods { s with context := c } = switchStep all_pods s) ∧
    (∀ (all_pods : List PodTuple) (s : ChatState), all_pods ≠ [] →
      (switchStep all_pods s).isSome = true) := by
  refine ⟨?_, ?_, ?_, ?_⟩
  · intro buffer rest
    simp [readUserInputOrCtrlN]
  · intro all_pods s t ht
    cases all_pods with
    | nil => simp at ht
    | cons p ps =>
      rw [List.get?_eq_getElem?] at ht
      simp only [List.length_cons] at ht
      simp [switchStep, ht]
  · intro all_pods s c
    simp [switchStep]
  · intro all_pods s h
    have hlen : all_pods.length ≠ 0 := fun hc => h (List.length_eq_zero.mp hc)
    have hidx : (s.current_idx + 1) % all_pods.length < all_pods.length :=
      Nat.mod_lt _ (Nat.pos_of_ne_zero hlen)
    have ht := List.get?_eq_get hidx
    cases all_pods with
    | nil => exact absurd rfl h
    | cons p ps =>
      rw [List.get?_eq_getElem?] at ht
      simp only [List.length_cons] at ht
      simp [switchStep, ht]

/-- Witness for C3: a typed partial line "kub" is discarded by Ctrl+n, and
switching from index 1 of a two-element working set lands on index 0 with
a fresh context. -/
theorem c3_switch_signal_cycles_target_witness :
    readUserInputOrCtrlN "kub".data ['\x0e'] = some ("", true) ∧
    switchStep [("a", "p1", "r1", none, none), ("b", "p2", "r2", none, none)]
        ⟨1, "b", "p2", "r2", "old accumulated context"⟩ =
      some ⟨0, "a", "p1", "r1", "Pod p1 in namespace a is failing: r1"⟩ := by
  constructor
  · exact c3_switch_signal_cycles_target.1 "kub".data []
  · exact c3_switch_signal_cycles_target.2.1
      [("a", "p1", "r1", none, none), ("b", "p2", "r2", none, none)]
      ⟨1, "b", "p2", "r2", "old accumulated context"⟩
      ("a", "p1", "r1", none, none) rfl

/-- C4 counterexample: a DESCRIBE_POD request with absent namespace and
name is dispatched with the absent values placed in the argv verbatim,
not with the current target's "prod"/"api-1" substituted — the claimed
defaulting does not happen for non-LOGS action types. -/
theorem c4_counterexample_describe_pod_no_defaulting :
    buildActionCmd ⟨.DESCRIBE_POD, none, none⟩ "prod" "api-1" none ≠
      buildActionCmd ⟨.DESCRIBE_POD, some "prod", some "api-1"⟩ "prod" "api-1" none := by
  decide

/-- C4 (amended): when a request is dispatched, absent namespace/name
fields default to the currently selected target's namespace/name for LOGS
only; DESCRIBE_POD and DESCRIBE_DEPLOYMENT place the oracle-provided
optional fields into the query verbatim, absent or not. -/
theorem c4_amended_defaulting_only_for_logs (req : ActionRequest) (ns pod : String)
    (sel : Option String) :
    (req.type = .LOGS →
      buildActionCmd req ns pod sel =
        [some "kubectl", some "logs", some (pyOr req.name pod), some "-n",
         some (pyOr req.ns ns), some "--tail=100"] ++
        (match sel with | some c => [some "-c", some c] | none => [])) ∧
    (req.type = .DESCRIBE_POD →
      buildActionCmd req ns pod sel =
        [some "kubectl", some "describe", some "pod", req.name, some "-n", req.ns]) ∧
    (req.type = .DESCRIBE_DEPLOYMENT →
      buildActionCmd req ns pod sel =
        [some "kubectl", some "describe", some "deployment", req.name,
         some "-n", req.ns]) := by
  refine ⟨?_, ?_, ?_⟩ <;> intro h <;> simp [buildActionCmd, h]

/-- Witness for C4 (amended): a LOGS request with absent fields picks up
the current target "prod"/"api-1". -/
theorem c4_amended_defaulting_only_for_logs_witness :
    buildActionCmd ⟨.LOGS, none, none⟩ "prod" "api-1" none =
      [some "kubectl", some "logs", some "api-1", some "-n", some "prod",
       some "--tail=100"] := by
  rw [(c4_amended_defaulting_only_for_logs ⟨.LOGS, none, none⟩ "prod" "api-1" none).1 rfl]
  decide

/-- C5: dispatch substitutes the current target's namespace/name for
omitted fields on LOGS requests only; DESCRIBE_POD, DESCRIBE_DEPLOYMENT,
GET_CONFIGMAP and GET_EVENTS queries carry exactly the namespace/name the
oracle provided, with no implicit substitution. -/
theorem c5_substitution_only_on_logs (req : ActionRequest) (ns pod : String)
    (sel : Option String) :
    (req.type = .LOGS →
      buildActionCmd req ns pod sel =
        [some "kubectl", some "logs", some (pyOr req.name pod), some "-n",
         some (pyOr req.ns ns), some "--tail=100"] ++
        (match sel with | some c => [some "-c", some c] | none => [])) ∧
    (req.type = .DESCRIBE_POD →
      buildActionCmd req ns pod sel =
        [some "kubectl", some "describe", some "pod", req.name, some "-n", req.ns]) ∧
    (req.type = .DESCRIBE_DEPLOYMENT →
      buildActionCmd req ns pod sel =
        [some "kubectl", some "describe", some "deployment", req.name,
         some "-n", req.ns]) ∧
    (req.type = .GET_CONFIGMAP →
      buildActionCmd req ns pod sel =
        [some "kubectl", some "get", some "configmap", req.name, some "-n", req.ns,
         some "-o", some "yaml"]) ∧
    (req.type = .GET_EVENTS →
      buildActionCmd req ns pod sel =
        [some "kubectl", some "get", some "events", some "-n", req.ns]) := by
  refine ⟨?_, ?_, ?_, ?_, ?_⟩ <;> intro h <;> simp [buildActionCmd, h]

/-- Witness for C5: a GET_EVENTS request with an absent namespace keeps the
absent value (no substitution of the target's "kube-system"), while a LOGS
request with an explicit namespace/name keeps the explicit values. -/
theorem c5_substitution_only_on_logs_witness :
    buildActionCmd ⟨.GET_EVENTS, none, none⟩ "kube-system" "coredns-1" none =
      [some "kubectl", some "get", some "events", some "-n", none] ∧
    buildActionCmd ⟨.LOGS, some "db", some "pg-0"⟩ "kube-system" "coredns-1" none =
      [some "kubectl", some "logs", some "pg-0", some "-n", some "db",
       some "--tail=100"] := by
  constructor
  · rw [(c5_substitution_only_on_logs ⟨.GET_EVENTS, none, none⟩ "kube-system"
      "coredns-1" none).2.2.2.2 rfl]
  · rw [(c5_substitution_only_on_logs ⟨.LOGS, some "db", some "pg-0"⟩ "kube-system"
      "coredns-1" none).1 rfl]
    decide

/-- C10: every LOGS dispatch includes the literal argument "--tail=100",
whatever namespace/name the oracle provided and whatever container was
selected: log retrieval is always capped at the last 100 lines. -/
theorem c10_logs_always_tail_100 (req : ActionRequest) (ns pod : String)
    (sel : Option String) (h : req.type = .LOGS) :
    some "--tail=100" ∈ buildActionCmd req ns pod sel := by
  cases sel <;> simp [buildActionCmd, h]

/-- Witness for C10 at a concrete LOGS request with a selected container. -/
theorem c10_logs_always_tail_100_witness :
    some "--tail=100" ∈
      buildActionCmd ⟨.LOGS, some "db", some "pg-0"⟩ "prod" "api-1" (some "postgres") :=
  c10_logs_always_tail_100 ⟨.LOGS, some "db", some "pg-0"⟩ "prod" "api-1"
    (some "postgres") rfl

/-- C7: the LOGS container menu is the init-container names followed by the
regular-container names, de-duplicated by first occurrence (no duplicates,
same membership, order preserved as a sublist of the raw enumeration);
with more than one distinct name no command is produced until a valid
explicit choice arrives, and the first valid choice selects that entry;
with exactly one name it is selected silently whatever the operator would
answer; with none, or when enumeration fails, the query proceeds with no
container qualifier. -/
theorem c7_logs_container_enumeration_and_selection :
    (∀ attempts, selectContainer (.error ()) attempts = some none) ∧
    (∀ spec attempts, uniqueNames spec = [] →
      selectContainer (.ok spec) attempts = some none) ∧
    (∀ spec attempts x, uniqueNames spec = [x] →
      selectContainer (.ok spec) attempts = some (some x)) ∧
    (∀ spec, (uniqueNames spec).length > 1 → selectContainer (.ok spec) [] = none) ∧
    (∀ spec attempts i, (uniqueNames spec).length > 1 →
      attempts.find? (fun j => j < (uniqueNames spec).length) = some i →
      selectContainer (.ok spec) attempts = some ((uniqueNames spec).get? i)) ∧
    (∀ spec, (uniqueNames spec).Nodup) ∧
    (∀ spec a, a ∈ uniqueNames spec ↔
      a ∈ containerNamesOf spec.init_containers ++ containerNamesOf spec.containers) ∧
    (∀ spec, List.Sublist (uniqueNames spec)
      (containerNamesOf spec.init_containers ++ containerNamesOf spec.containers)) := by
  refine ⟨?_, ?_, ?_, ?_, ?_, ?_, ?_, ?_⟩
  · intro attempts; rfl
  · intro spec attempts h; simp [selectContainer, h]
  · intro spec attempts x h; simp [selectContainer, h]
  · intro spec h; simp [selectContainer, h]
  · intro spec attempts i h hf; simp [selectContainer, h, hf]
  · intro spec; exact nodup_dedupFirst _
  · intro spec a; exact mem_dedupFirst _ a
  · intro spec; exact dedupFirst_sublist _

/-- A pod spec with one init container and two regular containers, one of
which repeats the init container's name. -/
def c7SpecMulti : PodSpec :=
  ⟨[⟨some "setup"⟩], [⟨some "app"⟩, ⟨some "setup"⟩, ⟨none⟩]⟩

/-- A pod spec with a single named container. -/
def c7SpecSingle : PodSpec := ⟨[], [⟨some "app"⟩]⟩

/-- Witness for C7: the three-way behaviour at concrete pod specs — no
output without a valid choice on the two-name menu, selection by the first
valid choice, silent selection of a single name, and the no-qualifier
fallback when enumeration fails. -/
theorem c7_logs_container_enumeration_and_selection_witness :
    selectContainer (.ok c7SpecMulti) [] = none ∧
    selectContainer (.ok c7SpecMulti) [7, 1] = some (some "app") ∧
    selectContainer (.ok c7SpecSingle) [] = some (some "app") ∧
    selectContainer (.error ()) [0] = some none := by
  refine ⟨?_, ?_, ?_, ?_⟩
  · exact c7_logs_container_enumeration_and_selection.2.2.2.1 c7SpecMulti (by decide)
  · have h := c7_logs_container_enumeration_and_selection.2.2.2.2.1 c7SpecMulti
      [7, 1] 1 (by decide) (by decide)
    rw [h]; rfl
  · exact c7_logs_container_enumeration_and_selection.2.2.1 c7SpecSingle [] "app" rfl
  · exact c7_logs_container_enumeration_and_selection.1 [0]

/-- C8: command execution never propagates a collaborator failure — the
runner is a total function into `String`; on success it returns the
captured stdout, and on a failed command it returns a distinctly prefixed
error string containing the invoked command (space-joined) and the
captured output. -/
theorem c8_runCmd_never_raises (exec : List String → Except String String)
    (cmd : List String) :
    (∀ out, exec cmd = .ok out → runCmd exec cmd = out) ∧
    (∀ out, exec cmd = .error out →
      runCmd exec cmd =
        "❌ Error executing " ++ String.intercalate " " cmd ++ ":\n" ++ out) := by
  constructor <;> intro out h <;> simp [runCmd, h]

/-- Witness for C8: a failing `kubectl logs` invocation yields the tagged
error string with the joined command and the captured output. -/
theorem c8_runCmd_never_raises_witness :
    runCmd (fun _ => .error "error from server") ["kubectl", "logs", "api-1"] =
      "❌ Error executing kubectl logs api-1:\nerror from server" := by
  rw [(c8_runCmd_never_raises (fun _ => .error "error from server")
    ["kubectl", "logs", "api-1"]).2 "error from server" rfl]
  decide

/-- C6 counterexample: a turn on the non-empty ordinary input "hello"
(context "C", oracle replying with passthrough text "ok") leaves a
transcript that does not contain the block "User: hello" anywhere — the
utterance was never appended to the accumulating context. -/
theorem c6_counterexample_user_block_not_appended :
    ¬ List.IsInfix ("User: hello").data
        ((oracleTurn "C" "hello" (.passthrough "ok")).2).data := by
  decide

/-- C6 (amended): the user utterance is folded only into the one-off
prompt submitted to the oracle for that turn (`context + "\nUser: " +
input`, in which the utterance does occur); the persistent context is not
updated with it — after the turn the transcript is the prior context
extended by the oracle-result block alone, independent of the input. -/
theorem c6_amended_user_input_only_in_prompt (context input : String)
    (res : OracleResult) :
    (oracleTurn context input res).1 = context ++ "\nUser: " ++ input ∧
    List.IsInfix ("User: " ++ input).data ((oracleTurn context input res).1).data ∧
    (oracleTurn context input res).2 = context ++ turnBlock res ∧
    (oracleTurn context input res).2 = (oracleTurn context "" res).2 := by
  refine ⟨rfl, ⟨context.data ++ ['\n'], [], ?_⟩, rfl, rfl⟩
  show context.data ++ ['\n'] ++ ("User: " ++ input).data ++ [] =
    ((oracleTurn context input res).1).data
  simp only [oracleTurn, userPrompt, String.data_append, List.append_nil,
    List.append_assoc]
  rfl

end Agent
